import Mathlib

/-!
Verification of the classifieds-marketplace repositories (listing service,
chat service) and the edit-page submission logic, as a shallow embedding.

The remote document store (a vendor service re-exported by `firebaseConfig`)
is modelled from the spec: a schemaless keyed collection with per-collection
CRUD, server-assigned identifiers and timestamps, and field-merging updates.
Everything else is translated directly from the source files
(`listingService`, `chatService`, `EditListingPage.handleSubmit`).
-/

namespace Marketplace

/-- Moderation status of a listing, from `types.ts` (`AdStatus`). -/
inductive AdStatus
  | pending
  | active
  | rejected
deriving DecidableEq, Repr

/-- A listing record as handed to callers, from `types.ts` (`Product`).
Timestamps are epoch milliseconds, modelled as `Nat`. -/
structure Product where
  id : String
  title : String
  description : String
  price : Int
  category : String
  subcategory : String
  images : List String
  userId : String
  status : AdStatus
  rejectionReason : Option String
  createdAt : Nat
  contactInfo : Option String
deriving DecidableEq, Repr

/-- A listing document as stored in the `listings` collection: the `Product`
fields minus the document key `id`. -/
structure ListingDoc where
  title : String
  description : String
  price : Int
  category : String
  subcategory : String
  images : List String
  userId : String
  status : AdStatus
  rejectionReason : Option String
  createdAt : Nat
  contactInfo : Option String
deriving DecidableEq, Repr

/-- A partial update object (a JS object literal passed to `updateDoc`):
`none` means the key is absent, `some v` means the key is present with value
`v`. For fields that are themselves optional in the document, the present
value is again an `Option` (`some none` models a key present with value
`undefined`, which clears the stored field). -/
structure ListingUpdate where
  title : Option String := none
  description : Option String := none
  price : Option Int := none
  category : Option String := none
  subcategory : Option String := none
  images : Option (List String) := none
  userId : Option String := none
  status : Option AdStatus := none
  rejectionReason : Option (Option String) := none
  createdAt : Option Nat := none
  contactInfo : Option (Option String) := none
deriving DecidableEq, Repr

/-- Modelled from the spec: merging an update object into a stored document
field by field (absent keys leave the field unchanged). -/
def applyUpdate (d : ListingDoc) (u : ListingUpdate) : ListingDoc :=
  { title := u.title.getD d.title
    description := u.description.getD d.description
    price := u.price.getD d.price
    category := u.category.getD d.category
    subcategory := u.subcategory.getD d.subcategory
    images := u.images.getD d.images
    userId := u.userId.getD d.userId
    status := u.status.getD d.status
    rejectionReason := u.rejectionReason.getD d.rejectionReason
    createdAt := u.createdAt.getD d.createdAt
    contactInfo := u.contactInfo.getD d.contactInfo }

/-- Modelled from the spec: the state of the `listings` collection plus the
clocks involved — the server-side id counter, the server clock used for
server-assigned timestamps, and the client wall clock (`Date.now()`). -/
structure ListingStore where
  docs : List (String × ListingDoc)
  nextId : Nat
  serverTime : Nat
  localTime : Nat
deriving DecidableEq, Repr

/-- Modelled from the spec: server-assigned document identifiers. -/
def genId (n : Nat) : String :=
  "doc" ++ Nat.repr n

/-- Look a document up by its key (first match). -/
def lookupDoc (l : List (String × ListingDoc)) (id : String) : Option ListingDoc :=
  match l with
  | [] => none
  | (k, d) :: t => if k = id then some d else lookupDoc t id

/-- Modelled from the spec: merge an update into the document at `id`,
leaving the collection unchanged when no such document exists. -/
def updateDocs (l : List (String × ListingDoc)) (id : String) (u : ListingUpdate) :
    List (String × ListingDoc) :=
  match l with
  | [] => []
  | (k, d) :: t =>
    if k = id then (k, applyUpdate d u) :: updateDocs t id u
    else (k, d) :: updateDocs t id u

/-- `getDoc` on the listings collection. -/
def getDoc (s : ListingStore) (id : String) : Option ListingDoc :=
  lookupDoc s.docs id

/-- `fromFirestore`: attach the document key as the `id` field. -/
def productOf (id : String) (d : ListingDoc) : Product :=
  { id := id
    title := d.title
    description := d.description
    price := d.price
    category := d.category
    subcategory := d.subcategory
    images := d.images
    userId := d.userId
    status := d.status
    rejectionReason := d.rejectionReason
    createdAt := d.createdAt
    contactInfo := d.contactInfo }

/-- Input to `createListing`: `Omit<Product, 'id' | 'createdAt' | 'status'>`. -/
structure CreateInput where
  title : String
  description : String
  price : Int
  category : String
  subcategory : String
  images : List String
  userId : String
  rejectionReason : Option String
  contactInfo : Option String
deriving DecidableEq, Repr

/-- `listingService.createListing`: throws when `productData.userId` is falsy
(the empty string), otherwise stores the data with status `pending` and a
server timestamp, and returns an optimistic record with the new id, status
`pending`, and `Date.now()` as a placeholder timestamp. -/
def createListing (pd : CreateInput) (s : ListingStore) :
    Except String (Product × ListingStore) :=
  if pd.userId = "" then
    .error "User ID is required to create a listing."
  else
    let d : ListingDoc :=
      { title := pd.title
        description := pd.description
        price := pd.price
        category := pd.category
        subcategory := pd.subcategory
        images := pd.images
        userId := pd.userId
        status := .pending
        rejectionReason := pd.rejectionReason
        createdAt := s.serverTime
        contactInfo := pd.contactInfo }
    let id := genId s.nextId
    let s2 : ListingStore :=
      { s with docs := s.docs ++ [(id, d)], nextId := s.nextId + 1 }
    .ok ({ productOf id d with createdAt := s.localTime }, s2)

/-- `listingService.updateListing`: strips any `userId` key from the update
object, merges the rest into the document, then re-reads the document and
returns it (`undefined` when it does not exist). -/
def updateListing (id : String) (u : ListingUpdate) (s : ListingStore) :
    Option Product × ListingStore :=
  let safeUpdates := { u with userId := none }
  let s2 : ListingStore := { s with docs := updateDocs s.docs id safeUpdates }
  ((getDoc s2 id).map (productOf id), s2)

/-- `listingService.approveListing`: update with `status: ACTIVE` and
`rejectionReason: undefined`. -/
def approveListing (id : String) (s : ListingStore) : Option Product × ListingStore :=
  updateListing id { status := some .active, rejectionReason := some none } s

/-- `listingService.rejectListing`: update with `status: REJECTED` and the
caller-supplied reason; the source performs no check on `reason`. -/
def rejectListing (id : String) (reason : String) (s : ListingStore) :
    Option Product × ListingStore :=
  updateListing id { status := some .rejected, rejectionReason := some (some reason) } s

/-- Spreading a full `Product` into an update object, as
`EditListingPage.handleSubmit` does with `updatedProductData` (every field
key present; the stray `id` key is immaterial since the document key is not
a stored field). -/
def productToUpdate (p : Product) : ListingUpdate :=
  { title := some p.title
    description := some p.description
    price := some p.price
    category := some p.category
    subcategory := some p.subcategory
    images := some p.images
    userId := some p.userId
    status := some p.status
    rejectionReason := some p.rejectionReason
    createdAt := some p.createdAt
    contactInfo := some p.contactInfo }

/-- `EditListingPage.handleSubmit`: a non-admin edit forces the submitted
status to `pending`; an admin edit keeps the status from the form; then
`updateListing` is called on the pre-loaded listing id. -/
def handleSubmit (isAdminEdit : Bool) (initialProductId : String) (productData : Product)
    (s : ListingStore) : Option Product × ListingStore :=
  let finalStatus := if isAdminEdit then productData.status else AdStatus.pending
  let updatedProductData : Product := { productData with status := finalStatus }
  updateListing initialProductId (productToUpdate updatedProductData) s

/-- A chat message, from `types.ts` (`Message`); the document key is kept in
the record itself, as `messageFromFirestore` produces it. -/
structure Message where
  id : String
  adId : String
  senderId : String
  receiverId : String
  text : String
  timestamp : Nat
  read : Bool
deriving DecidableEq, Repr

/-- Modelled from the spec: the state of the `messages` collection plus the
server id counter, the server clock, and the client wall clock. -/
structure ChatStore where
  msgs : List Message
  nextId : Nat
  serverTime : Nat
  localTime : Nat
deriving DecidableEq, Repr

/-- Timestamp order on messages (`orderBy('timestamp', 'asc')`). -/
def msgLe : Message → Message → Prop :=
  fun a b => a.timestamp ≤ b.timestamp

instance : DecidableRel msgLe := fun a b => Nat.decLe a.timestamp b.timestamp

instance : IsTotal Message msgLe := ⟨fun a b => Nat.le_total a.timestamp b.timestamp⟩

instance : IsTrans Message msgLe := ⟨fun _ _ _ => Nat.le_trans⟩

/-- `chatService.getMessagesForAd`: empty result for a falsy user id;
otherwise the store query filters by `adId` and sorts by timestamp
ascending, and the result is filtered locally to messages where the user is
sender or receiver. -/
def getMessagesForAd (adId currentUserId : String) (s : ChatStore) : List Message :=
  if currentUserId = "" then []
  else
    (List.insertionSort msgLe (s.msgs.filter fun m => decide (m.adId = adId))).filter
      fun m => decide (m.senderId = currentUserId ∨ m.receiverId = currentUserId)

/-- `chatService.sendMessage`: throws when the sender or receiver id is
falsy; otherwise stores the message with `read: false` and a server
timestamp and returns the optimistic record with `Date.now()` as a
placeholder timestamp. -/
def sendMessage (adId senderId receiverId text : String) (s : ChatStore) :
    Except String (Message × ChatStore) :=
  if senderId = "" ∨ receiverId = "" then
    .error "Sender and Receiver ID are required to send a message."
  else
    let stored : Message :=
      { id := genId s.nextId
        adId := adId
        senderId := senderId
        receiverId := receiverId
        text := text
        timestamp := s.serverTime
        read := false }
    let s2 : ChatStore := { s with msgs := s.msgs ++ [stored], nextId := s.nextId + 1 }
    .ok ({ stored with timestamp := s.localTime }, s2)

/-- The query predicate of `markMessagesAsRead`: unread messages of the
listing addressed to the reader. -/
def unreadFor (adId readerId : String) (m : Message) : Prop :=
  m.adId = adId ∧ m.receiverId = readerId ∧ m.read = false

instance (adId readerId : String) : DecidablePred (unreadFor adId readerId) :=
  fun m => by unfold unreadFor; infer_instance

/-- `chatService.markMessagesAsRead`: no-op for a falsy reader id; no-op when
the query result is empty; otherwise a batched write sets `read: true` on
exactly the documents the query matched. -/
def markMessagesAsRead (adId readerId : String) (s : ChatStore) : ChatStore :=
  if readerId = "" then s
  else
    let snapshot := s.msgs.filter fun m => decide (unreadFor adId readerId m)
    if snapshot.isEmpty then s
    else
      { s with
        msgs := s.msgs.map fun m =>
          if unreadFor adId readerId m then { m with read := true } else m }

/-- The JS `Set` insertion step: append an element unless already present. -/
def insertUnique (acc : List String) (x : String) : List String :=
  if x ∈ acc then acc else acc ++ [x]

/-- `chatService.getChatsForUser`: empty result for a falsy user id;
otherwise the ad ids of the user's sent messages followed by those of the
received messages, collected into a `Set` (insertion-ordered, deduplicated). -/
def getChatsForUser (userId : String) (s : ChatStore) : List String :=
  if userId = "" then []
  else
    let sentIds := (s.msgs.filter fun m => decide (m.senderId = userId)).map (·.adId)
    let receivedIds := (s.msgs.filter fun m => decide (m.receiverId = userId)).map (·.adId)
    (sentIds ++ receivedIds).foldl insertUnique []

/-- Reading back the document just updated gives the merged document. -/
theorem lookupDoc_updateDocs_self (l : List (String × ListingDoc)) (id : String)
    (u : ListingUpdate) :
    lookupDoc (updateDocs l id u) id = (lookupDoc l id).map (fun d => applyUpdate d u) := by
  induction l with
  | nil => rfl
  | cons p t ih =>
    obtain ⟨k, d⟩ := p
    by_cases h : k = id
    · simp [lookupDoc, updateDocs, h]
    · simpa [lookupDoc, updateDocs, h] using ih

theorem getDoc_updateListing (id : String) (u : ListingUpdate) (s : ListingStore) :
    getDoc (updateListing id u s).2 id
      = (getDoc s id).map (fun d => applyUpdate d { u with userId := none }) := by
  simp [updateListing, getDoc, lookupDoc_updateDocs_self]

theorem genId_ne_empty (n : Nat) : genId n ≠ "" := by
  intro h
  have hlen := congrArg String.length h
  simp [genId, String.length_append] at hlen
  exact absurd hlen.1 (by decide)

/-- A sample stored listing document used for witnesses and counterexamples. -/
def exDoc : ListingDoc :=
  { title := "bike"
    description := "red bike"
    price := 5
    category := "c1"
    subcategory := "sc1"
    images := ["img1"]
    userId := "u1"
    status := .pending
    rejectionReason := some "old reason"
    createdAt := 10
    contactInfo := none }

/-- A sample listings store holding one document under key `L1`. -/
def exStore : ListingStore :=
  { docs := [("L1", exDoc)], nextId := 7, serverTime := 100, localTime := 200 }

/-- A sample full product record as submitted from the edit form. -/
def exProduct : Product :=
  { id := "L1"
    title := "bike v2"
    description := "red bike, new tires"
    price := 6
    category := "c1"
    subcategory := "sc1"
    images := ["img1"]
    userId := "uX"
    status := .active
    rejectionReason := none
    createdAt := 11
    contactInfo := some "@u" }

/-- A sample create-listing input with an empty owner id. -/
def exCreateBad : CreateInput :=
  { title := "bike"
    description := "red bike"
    price := 5
    category := "c1"
    subcategory := "sc1"
    images := []
    userId := ""
    rejectionReason := none
    contactInfo := none }

/-- A sample create-listing input with a non-empty owner id. -/
def exCreateGood : CreateInput :=
  { exCreateBad with userId := "u1" }

/-- C1 (counterexample). Calling reject with an empty reason string does
succeed: `rejectListing` performs no required-field check, so the listing is
written with status `rejected` and the empty reason, and the call returns
the updated record instead of reporting an error. -/
theorem rejectListing_empty_reason_succeeds :
    getDoc (rejectListing "L1" "" exStore).2 "L1"
        = some { exDoc with status := .rejected, rejectionReason := some "" }
    ∧ (rejectListing "L1" "" exStore).1
        = some (productOf "L1" { exDoc with status := .rejected, rejectionReason := some "" }) := by
  constructor <;> rfl

/-- C1 (amended). For every listing present in the store and every reason
string, empty included, reject writes the listing with status `rejected`
and that reason stored verbatim, and returns the updated record; the
repository performs no required-field check on the reason. -/
theorem rejectListing_writes_reason_verbatim (id reason : String) (s : ListingStore)
    (d : ListingDoc) (h : getDoc s id = some d) :
    getDoc (rejectListing id reason s).2 id
        = some { d with status := .rejected, rejectionReason := some reason }
    ∧ (rejectListing id reason s).1
        = some (productOf id { d with status := .rejected, rejectionReason := some reason }) := by
  have hl : lookupDoc s.docs id = some d := h
  constructor <;>
    simp [rejectListing, updateListing, getDoc, lookupDoc_updateDocs_self, hl, applyUpdate]

/-- C1 (witness). The amended reject behavior evaluated on the sample store. -/
theorem rejectListing_writes_reason_verbatim_witness :
    getDoc (rejectListing "L1" "blurry photo" exStore).2 "L1"
        = some { exDoc with status := .rejected, rejectionReason := some "blurry photo" }
    ∧ (rejectListing "L1" "blurry photo" exStore).1
        = some (productOf "L1" { exDoc with status := .rejected, rejectionReason := some "blurry photo" }) :=
  rejectListing_writes_reason_verbatim "L1" "blurry photo" exStore exDoc (by decide)

/-- C2. For every existing listing and every submitted form record, a
non-admin edit writes the listing with status `pending`, regardless of the
submitted fields; an admin edit writes the status chosen in the form. -/
theorem handleSubmit_status (isAdminEdit : Bool) (pid : String) (p : Product)
    (s : ListingStore) (d : ListingDoc) (h : getDoc s pid = some d) :
    (getDoc (handleSubmit isAdminEdit pid p s).2 pid).map (·.status)
      = some (if isAdminEdit then p.status else AdStatus.pending) := by
  have hl : lookupDoc s.docs pid = some d := h
  cases isAdminEdit <;>
    simp [handleSubmit, productToUpdate, updateListing, getDoc, lookupDoc_updateDocs_self, hl,
      applyUpdate]

/-- C2 (witness). An owner edit of the sample active-status form resets the
stored status to `pending`; the same submission as admin stores the form
status `active`. -/
theorem handleSubmit_status_witness :
    (getDoc (handleSubmit false "L1" exProduct exStore).2 "L1").map (·.status)
        = some AdStatus.pending
    ∧ (getDoc (handleSubmit true "L1" exProduct exStore).2 "L1").map (·.status)
        = some AdStatus.active :=
  ⟨handleSubmit_status false "L1" exProduct exStore exDoc (by decide),
   handleSubmit_status true "L1" exProduct exStore exDoc (by decide)⟩

/-- C3. Creating with an empty owner id fails with the required-field error
(and, the result being an error, nothing is written); creating with a
non-empty owner id appends a document with status `pending` and returns a
record with status `pending` and a non-empty identifier. -/
theorem createListing_spec (pd : CreateInput) (s : ListingStore) :
    (pd.userId = "" →
      createListing pd s = .error "User ID is required to create a listing.")
    ∧ (pd.userId ≠ "" →
      ∃ p s2 d, createListing pd s = .ok (p, s2) ∧ p.status = .pending ∧ p.id ≠ ""
        ∧ s2.docs = s.docs ++ [(p.id, d)] ∧ d.status = .pending) := by
  constructor
  · intro h
    simp only [createListing]
    rw [if_pos h]
  · intro h
    simp only [createListing]
    rw [if_neg h]
    exact ⟨_, _, _, rfl, rfl, genId_ne_empty s.nextId, rfl, rfl⟩

/-- C3 (witness). Both branches of the create-listing behavior evaluated on
sample inputs. -/
theorem createListing_spec_witness :
    createListing exCreateBad exStore = .error "User ID is required to create a listing."
    ∧ ∃ p s2 d, createListing exCreateGood exStore = .ok (p, s2) ∧ p.status = .pending
        ∧ p.id ≠ "" ∧ s2.docs = exStore.docs ++ [(p.id, d)] ∧ d.status = .pending :=
  ⟨(createListing_spec exCreateBad exStore).1 rfl,
   (createListing_spec exCreateGood exStore).2 (by decide)⟩

/-- C4. For every listing present in the store, approve writes the listing
with status `active`, the rejection reason removed, and every other field
unchanged, and returns that updated record. -/
theorem approveListing_spec (id : String) (s : ListingStore) (d : ListingDoc)
    (h : getDoc s id = some d) :
    getDoc (approveListing id s).2 id
        = some { d with status := .active, rejectionReason := none }
    ∧ (approveListing id s).1
        = some (productOf id { d with status := .active, rejectionReason := none }) := by
  have hl : lookupDoc s.docs id = some d := h
  constructor <;>
    simp [approveListing, updateListing, getDoc, lookupDoc_updateDocs_self, hl, applyUpdate]

/-- C4 (witness). Approving the sample listing, whose stored document holds a
rejection reason, yields status `active` with the reason cleared. -/
theorem approveListing_spec_witness :
    getDoc (approveListing "L1" exStore).2 "L1"
        = some { exDoc with status := .active, rejectionReason := none }
    ∧ (approveListing "L1" exStore).1
        = some (productOf "L1" { exDoc with status := .active, rejectionReason := none }) :=
  approveListing_spec "L1" exStore exDoc (by decide)

/-- C9. For every update call, the stored owner id at the updated key is the
same after the call as before (any `userId` key in the update object is
stripped), and the call returns exactly the re-read document at that key —
`none` when no such document exists. -/
theorem updateListing_spec (id : String) (u : ListingUpdate) (s : ListingStore) :
    (getDoc (updateListing id u s).2 id).map (·.userId) = (getDoc s id).map (·.userId)
    ∧ (updateListing id u s).1 = (getDoc (updateListing id u s).2 id).map (productOf id) := by
  constructor
  · rw [getDoc_updateListing]
    cases hd : getDoc s id <;> simp [applyUpdate]
  · rfl

/-- A message whose receiver id is the empty string, as the schemaless store
can hold (the repository itself never writes one). -/
def exMsgGuard : Message :=
  { id := "m1", adId := "L", senderId := "u1", receiverId := "", text := "hi",
    timestamp := 5, read := false }

/-- A sample messages store holding only `exMsgGuard`. -/
def exChatGuard : ChatStore :=
  { msgs := [exMsgGuard], nextId := 1, serverTime := 100, localTime := 200 }

/-- A sample message from `u1` to `u2` about listing `L`. -/
def exMsgA : Message :=
  { id := "m1", adId := "L", senderId := "u1", receiverId := "u2", text := "hi",
    timestamp := 5, read := false }

/-- A sample message from `u2` to `u1` about listing `L`. -/
def exMsgB : Message :=
  { id := "m2", adId := "L", senderId := "u2", receiverId := "u1", text := "yo",
    timestamp := 6, read := false }

/-- A sample message between other users about another listing. -/
def exMsgC : Message :=
  { id := "m3", adId := "M", senderId := "u3", receiverId := "u2", text := "ok",
    timestamp := 4, read := false }

/-- A sample messages store with three messages. -/
def exChat : ChatStore :=
  { msgs := [exMsgA, exMsgB, exMsgC], nextId := 3, serverTime := 100, localTime := 200 }

theorem map_self_of_fix {α : Type} (l : List α) (f : α → α) (h : ∀ a ∈ l, f a = a) :
    l.map f = l := by
  induction l with
  | nil => rfl
  | cons a t ih =>
    simp only [List.map_cons, h a (List.mem_cons_self a t),
      ih (fun b hb => h b (List.mem_cons_of_mem a hb))]

theorem mem_insertUnique (acc : List String) (a x : String) :
    x ∈ insertUnique acc a ↔ x ∈ acc ∨ x = a := by
  by_cases h : a ∈ acc
  · simp only [insertUnique, if_pos h]
    exact ⟨Or.inl, fun hx => hx.elim id (fun hxa => hxa ▸ h)⟩
  · simp [insertUnique, if_neg h]

theorem mem_foldl_insertUnique (l : List String) (acc : List String) (x : String) :
    x ∈ l.foldl insertUnique acc ↔ x ∈ acc ∨ x ∈ l := by
  induction l generalizing acc with
  | nil => simp
  | cons a t ih =>
    simp only [List.foldl_cons, ih, mem_insertUnique, List.mem_cons]
    constructor
    · rintro ((hx | hx) | hx)
      · exact Or.inl hx
      · exact Or.inr (Or.inl hx)
      · exact Or.inr (Or.inr hx)
    · rintro (hx | hx | hx)
      · exact Or.inl (Or.inl hx)
      · exact Or.inl (Or.inr hx)
      · exact Or.inr hx

theorem nodup_insertUnique (acc : List String) (a : String) (h : acc.Nodup) :
    (insertUnique acc a).Nodup := by
  by_cases ha : a ∈ acc
  · simpa [insertUnique, if_pos ha] using h
  · simp [insertUnique, if_neg ha, List.nodup_append, h, ha]

theorem nodup_foldl_insertUnique (l : List String) (acc : List String) (h : acc.Nodup) :
    (l.foldl insertUnique acc).Nodup := by
  induction l generalizing acc with
  | nil => simpa using h
  | cons a t ih => exact ih _ (nodup_insertUnique _ _ h)

/-- C8. Sending with a missing sender or receiver id fails with the
required-field error (and, the result being an error, nothing is written);
otherwise the returned message has `read = false`, the given fields, and
the local wall-clock placeholder timestamp, while the stored message is the
same record with the server-assigned timestamp instead. -/
theorem sendMessage_spec (adId senderId receiverId text : String) (s : ChatStore) :
    (senderId = "" ∨ receiverId = "" →
      sendMessage adId senderId receiverId text s
        = .error "Sender and Receiver ID are required to send a message.")
    ∧ (senderId ≠ "" → receiverId ≠ "" →
      ∃ m s2, sendMessage adId senderId receiverId text s = .ok (m, s2)
        ∧ m.read = false ∧ m.adId = adId ∧ m.senderId = senderId
        ∧ m.receiverId = receiverId ∧ m.text = text ∧ m.timestamp = s.localTime
        ∧ s2.msgs = s.msgs ++ [{ m with timestamp := s.serverTime }]) := by
  constructor
  · intro h
    simp only [sendMessage]
    rw [if_pos h]
  · intro h1 h2
    have hor : ¬(senderId = "" ∨ receiverId = "") := by
      rintro (h | h)
      · exact h1 h
      · exact h2 h
    simp only [sendMessage]
    rw [if_neg hor]
    exact ⟨_, _, rfl, rfl, rfl, rfl, rfl, rfl, rfl, rfl⟩

/-- C8 (witness). Both branches of the send-message behavior evaluated on
sample inputs over the sample store. -/
theorem sendMessage_spec_witness :
    sendMessage "L" "" "u2" "hey" exChat
        = .error "Sender and Receiver ID are required to send a message."
    ∧ ∃ m s2, sendMessage "L" "u1" "u2" "hey" exChat = .ok (m, s2)
        ∧ m.read = false ∧ m.adId = "L" ∧ m.senderId = "u1"
        ∧ m.receiverId = "u2" ∧ m.text = "hey" ∧ m.timestamp = exChat.localTime
        ∧ s2.msgs = exChat.msgs ++ [{ m with timestamp := exChat.serverTime }] :=
  ⟨(sendMessage_spec "L" "" "u2" "hey" exChat).1 (Or.inl rfl),
   (sendMessage_spec "L" "u1" "u2" "hey" exChat).2 (by decide) (by decide)⟩

/-- C5 (counterexample). With an empty reader id the guard returns before the
query runs, so a stored message that matches the claimed predicate — listing
`L`, receiver equal to the (empty) reader id, `read = false` — is left
unread, where the claim requires its read flag to be set. -/
theorem markMessagesAsRead_empty_reader_skips_matching :
    markMessagesAsRead "L" "" exChatGuard = exChatGuard
    ∧ exMsgGuard ∈ exChatGuard.msgs ∧ unreadFor "L" "" exMsgGuard := by
  refine ⟨rfl, by decide, ?_⟩
  decide

/-- C5 (amended). For every listing id, every non-empty reader id, and every
store, mark-messages-read maps each stored message to itself unless it
matches the query — same listing, receiver equal to the reader, unread — in
which case only its read flag is set to `true`; nothing else in the store
changes. With an empty reader id the store is left unchanged. -/
theorem markMessagesAsRead_spec (adId readerId : String) (s : ChatStore)
    (h : readerId ≠ "") :
    markMessagesAsRead adId readerId s
      = { s with
          msgs := s.msgs.map fun m =>
            if unreadFor adId readerId m then { m with read := true } else m } := by
  simp only [markMessagesAsRead, if_neg h]
  by_cases he : (s.msgs.filter fun m => decide (unreadFor adId readerId m)).isEmpty
  · rw [if_pos he]
    have hnone : ∀ m ∈ s.msgs, ¬ unreadFor adId readerId m := by
      intro m hm
      have hnil : s.msgs.filter (fun m => decide (unreadFor adId readerId m)) = [] :=
        List.isEmpty_iff.mp he
      have := List.filter_eq_nil_iff.mp hnil m hm
      simpa using this
    have hmap : (s.msgs.map fun m =>
        if unreadFor adId readerId m then { m with read := true } else m) = s.msgs :=
      map_self_of_fix s.msgs _ (fun m hm => if_neg (hnone m hm))
    rw [hmap]
  · rw [if_neg he]

/-- C5 (witness). The amended mark-read behavior evaluated on the sample
store: the message addressed to `u2` is flipped, the one `u2` sent and the
one on another listing are untouched. -/
theorem markMessagesAsRead_spec_witness :
    markMessagesAsRead "L" "u2" exChat
      = { exChat with
          msgs := exChat.msgs.map fun m =>
            if unreadFor "L" "u2" m then { m with read := true } else m } :=
  markMessagesAsRead_spec "L" "u2" exChat (by decide)

/-- C6 (counterexample). With an empty user id the guard returns the empty
list, although the store holds a message for listing `L` in which the empty
user id is a participant (its receiver id is the empty string), which the
claim requires to be returned. -/
theorem getMessagesForAd_empty_user_guard :
    getMessagesForAd "L" "" exChatGuard = []
    ∧ exMsgGuard ∈ exChatGuard.msgs ∧ exMsgGuard.adId = "L"
    ∧ exMsgGuard.receiverId = "" := by
  refine ⟨rfl, by decide, rfl, rfl⟩

/-- C6 (amended). For every listing id and every non-empty user id, the
result is a permutation of the stored messages of that listing in which the
user is sender or receiver, and it is sorted by timestamp ascending. With
an empty user id the empty list is returned. -/
theorem getMessagesForAd_spec (adId uid : String) (s : ChatStore) (h : uid ≠ "") :
    (getMessagesForAd adId uid s).Perm
        (s.msgs.filter fun m => decide (m.adId = adId ∧ (m.senderId = uid ∨ m.receiverId = uid)))
    ∧ (getMessagesForAd adId uid s).Sorted msgLe := by
  constructor
  · simp only [getMessagesForAd, if_neg h]
    have h1 :
        ((List.insertionSort msgLe (s.msgs.filter fun m => decide (m.adId = adId))).filter
            fun m => decide (m.senderId = uid ∨ m.receiverId = uid)).Perm
          ((s.msgs.filter fun m => decide (m.adId = adId)).filter
            fun m => decide (m.senderId = uid ∨ m.receiverId = uid)) :=
      (List.perm_insertionSort msgLe _).filter _
    refine h1.trans ?_
    rw [List.filter_filter]
    apply List.Perm.of_eq
    apply List.filter_congr
    intro m _
    simp [Bool.decide_and, Bool.and_comm]
  · simp only [getMessagesForAd, if_neg h]
    exact (List.sorted_insertionSort msgLe _).filter _

/-- C6 (witness). The amended query behavior evaluated for `u1` on the
sample store. -/
theorem getMessagesForAd_spec_witness :
    (getMessagesForAd "L" "u1" exChat).Perm
        (exChat.msgs.filter fun m =>
          decide (m.adId = "L" ∧ (m.senderId = "u1" ∨ m.receiverId = "u1")))
    ∧ (getMessagesForAd "L" "u1" exChat).Sorted msgLe :=
  getMessagesForAd_spec "L" "u1" exChat (by decide)

/-- C7 (counterexample). With an empty user id the guard returns the empty
list, although the store holds a message whose receiver id is the empty
string, so the deduplicated union of listing ids for that user id is
`["L"]`, not the empty list. -/
theorem getChatsForUser_empty_user_guard :
    getChatsForUser "" exChatGuard = []
    ∧ exMsgGuard ∈ exChatGuard.msgs ∧ exMsgGuard.receiverId = ""
    ∧ exMsgGuard.adId = "L" := by
  refine ⟨rfl, by decide, rfl, rfl⟩

/-- C7 (amended). For every non-empty user id, the returned list holds each
listing id at most once, and holds exactly the listing ids of stored
messages in which the user is sender or receiver. With an empty user id the
empty list is returned. -/
theorem getChatsForUser_spec (uid : String) (s : ChatStore) (h : uid ≠ "") :
    (getChatsForUser uid s).Nodup
    ∧ ∀ x, x ∈ getChatsForUser uid s ↔
        ∃ m ∈ s.msgs, (m.senderId = uid ∨ m.receiverId = uid) ∧ m.adId = x := by
  simp only [getChatsForUser, if_neg h]
  constructor
  · exact nodup_foldl_insertUnique _ _ List.nodup_nil
  · intro x
    rw [mem_foldl_insertUnique]
    simp only [List.not_mem_nil, false_or, List.mem_append, List.mem_map, List.mem_filter,
      decide_eq_true_eq]
    constructor
    · rintro (⟨m, ⟨hm, hs⟩, hx⟩ | ⟨m, ⟨hm, hr⟩, hx⟩)
      · exact ⟨m, hm, Or.inl hs, hx⟩
      · exact ⟨m, hm, Or.inr hr, hx⟩
    · rintro ⟨m, hm, hs | hr, hx⟩
      · exact Or.inl ⟨m, ⟨hm, hs⟩, hx⟩
      · exact Or.inr ⟨m, ⟨hm, hr⟩, hx⟩

/-- C7 (witness). The amended chat-list behavior evaluated for `u1` on the
sample store, instantiated at listing id `L`. -/
theorem getChatsForUser_spec_witness :
    (getChatsForUser "u1" exChat).Nodup
    ∧ ("L" ∈ getChatsForUser "u1" exChat ↔
        ∃ m ∈ exChat.msgs, (m.senderId = "u1" ∨ m.receiverId = "u1") ∧ m.adId = "L") :=
  ⟨(getChatsForUser_spec "u1" exChat (by decide)).1,
   (getChatsForUser_spec "u1" exChat (by decide)).2 "L"⟩

/-- C10. When the reader id is empty, or no stored message of the listing is
unread and addressed to the reader, mark-messages-read returns the store
exactly unchanged (the guard, respectively the empty-snapshot early return,
fires before any batch is created). -/
theorem markMessagesAsRead_noop (adId readerId : String) (s : ChatStore)
    (h : readerId = "" ∨ ∀ m ∈ s.msgs, ¬ unreadFor adId readerId m) :
    markMessagesAsRead adId readerId s = s := by
  rcases h with h | h
  · simp [markMessagesAsRead, h]
  · by_cases hr : readerId = ""
    · simp [markMessagesAsRead, hr]
    · have hfil : s.msgs.filter (fun m => decide (unreadFor adId readerId m)) = [] := by
        apply List.filter_eq_nil_iff.mpr
        intro m hm
        simpa using h m hm
      simp [markMessagesAsRead, hr, hfil]

/-- C10 (witness). Both no-write branches evaluated on the sample stores: an
empty reader id, and a reader (`u3`) with no unread message addressed to
them on listing `L`. -/
theorem markMessagesAsRead_noop_witness :
    markMessagesAsRead "L" "" exChat = exChat
    ∧ markMessagesAsRead "L" "u3" exChat = exChat :=
  ⟨markMessagesAsRead_noop "L" "" exChat (Or.inl rfl),
   markMessagesAsRead_noop "L" "u3" exChat (Or.inr (by decide))⟩

end Marketplace
